import Mathlib

/-!
Verification of the dispatch core of the `fortitude` AI gateway
(`src/boilerplates/python`): model registry, request validation,
provider dispatch, stream normalization, error mapping and
availability checks, shallowly embedded from the Python source.
-/

namespace Fortitude

/-- `AIProvider` enum from `src/types/api.py` (lines 13-19): the closed
four-value enumeration of backend kinds. -/
inductive AIProvider where
  | openai
  | deepseek
  | litellm
  | openaiCompatible
deriving DecidableEq, Repr

/-- The string value of each `AIProvider` enum member, as in the source
(`"openai"`, `"deepseek"`, `"litellm"`, `"openai_compatible"`). -/
def AIProvider.value : AIProvider → String
  | .openai => "openai"
  | .deepseek => "deepseek"
  | .litellm => "litellm"
  | .openaiCompatible => "openai_compatible"

/-- `AIModel` pydantic model from `src/types/api.py` (lines 22-29). -/
structure AIModel where
  id : String
  name : String
  provider : AIProvider
  description : Option String := none
  maxTokens : Option Nat := none
deriving DecidableEq, Repr

/-- `OPENAI_MODELS` static catalog from `src/types/api.py` (lines 33-55). -/
def OPENAI_MODELS : List AIModel :=
  [ { id := "gpt-4o", name := "GPT-4o", provider := .openai,
      description := some "Most capable model for complex tasks",
      maxTokens := some 128000 },
    { id := "gpt-4-turbo", name := "GPT-4 Turbo", provider := .openai,
      description := some "Optimized version of GPT-4",
      maxTokens := some 128000 },
    { id := "gpt-3.5-turbo", name := "GPT-3.5 Turbo", provider := .openai,
      description := some "Fast and efficient for most tasks",
      maxTokens := some 16385 } ]

/-- `DEEPSEEK_MODELS` static catalog from `src/types/api.py` (lines 58-73). -/
def DEEPSEEK_MODELS : List AIModel :=
  [ { id := "deepseek-chat", name := "DeepSeek Chat", provider := .deepseek,
      description := some "General purpose chat model",
      maxTokens := some 32768 },
    { id := "deepseek-coder", name := "DeepSeek Coder", provider := .deepseek,
      description := some "Specialized for coding tasks",
      maxTokens := some 32768 } ]

/-- The mutable state of `ModelRegistry` (`src/types/api.py`, lines 75-151):
the two dynamic catalogs.  The two static catalogs are module-level
constants and not part of the state. -/
structure RegistryState where
  litellmModels : List AIModel
  openaiCompatibleModels : List AIModel
deriving DecidableEq, Repr

/-- The hard-coded `openai_compatible` catalog installed by
`ModelRegistry.__init__` (`src/types/api.py`, lines 81-103). -/
def initialOpenAICompatibleModels : List AIModel :=
  [ { id := "llama3.3-70b-instruct", name := "Llama 3", provider := .openaiCompatible,
      description := some "Meta's Llama 3 model via OpenAI-compatible API",
      maxTokens := some 30000 },
    { id := "deepseek-v3", name := "DeepSeek-V3", provider := .openaiCompatible,
      description := some "DeepSeek V3 model via OpenAI-compatible API",
      maxTokens := some 57344 },
    { id := "qwen-max", name := "通义千问-Max", provider := .openaiCompatible,
      description := some "通义千问-Max model via OpenAI-compatible API",
      maxTokens := some 30720 } ]

/-- `ModelRegistry.__init__` (`src/types/api.py`, lines 78-103): empty
litellm catalog, hard-coded openai_compatible catalog. -/
def registryInit : RegistryState :=
  { litellmModels := [], openaiCompatibleModels := initialOpenAICompatibleModels }

/-- `ModelRegistry._get_all_models` (`src/types/api.py`, lines 105-116):
concatenation of the four catalogs in the fixed order
openai, deepseek, litellm, openai_compatible. -/
def getAllModels (s : RegistryState) : List AIModel :=
  OPENAI_MODELS ++ DEEPSEEK_MODELS ++ s.litellmModels ++ s.openaiCompatibleModels

/-- `ModelRegistry.update_litellm_models` (`src/types/api.py`, lines 145-151):
`self._litellm_models = models if models else []`. -/
def updateLitellmModels (models : List AIModel) (s : RegistryState) : RegistryState :=
  { s with litellmModels := if models.isEmpty then [] else models }

/-- The mutating operations exposed by `ModelRegistry`.  The source class
has exactly one mutator, `update_litellm_models`; no operation updates
the `openai_compatible` catalog. -/
inductive RegistryOp where
  | updateLitellm (models : List AIModel)
deriving DecidableEq, Repr

/-- Apply a `RegistryOp` to the registry state (one atomic transition:
the source mutator is a single attribute assignment). -/
def applyRegistryOp : RegistryOp → RegistryState → RegistryState
  | .updateLitellm ms, s => updateLitellmModels ms s

/-- `ApiError` from `src/middlewares/error_handler.py` (lines 24-38):
the single domain-error shape `{status_code, message, code}`. -/
structure ApiError where
  statusCode : Nat
  message : String
  code : String
deriving DecidableEq, Repr

/-- `CompletionRequest` from `src/types/api.py` (lines 194-202).
`temperature` is a float passed through verbatim to upstream payloads;
it plays no role in any control flow modelled here and is omitted. -/
structure CompletionRequest where
  model : String
  prompt : String
  maxTokens : Option Nat := none
  provider : Option AIProvider := none
  stream : Bool := false
deriving DecidableEq, Repr

/-- `UsageInfo` from `src/types/api.py` (lines 205-210). -/
structure UsageInfo where
  promptTokens : Nat := 0
  completionTokens : Nat := 0
  totalTokens : Nat := 0
deriving DecidableEq, Repr

/-- `CompletionResponse` from `src/types/api.py` (lines 213-221).
`createdAt` carries the ISO timestamp string produced by the adapter. -/
structure CompletionResponse where
  id : String
  model : String
  provider : AIProvider
  content : String
  usage : UsageInfo
  createdAt : String
deriving DecidableEq, Repr

/-- `StreamChunk` from `src/types/api.py` (lines 224-233). -/
structure StreamChunk where
  id : String
  model : String
  provider : AIProvider
  content : String
  createdAt : String
  finishReason : Option String := none
  isLastChunk : Bool := false
deriving DecidableEq, Repr

/-- The module-level names defined by `src/types/api.py` (its top-level
classes, constants and functions, in source order). -/
def typesApiModuleNames : List String :=
  [ "AIProvider", "AIModel", "OPENAI_MODELS", "DEEPSEEK_MODELS",
    "ModelRegistry", "model_registry", "get_litellm_models",
    "get_openai_compatible_models", "get_all_models",
    "update_litellm_models", "CompletionRequest", "UsageInfo",
    "CompletionResponse", "StreamChunk", "ErrorDetail", "ErrorResponse" ]

/-- The names `src/services/ai_service.py` (lines 15-22) imports from
`src.types.api`. -/
def aiServiceTypesApiImports : List String :=
  [ "AIProvider", "CompletionRequest", "CompletionResponse",
    "StreamChunk", "ALL_MODELS", "update_litellm_models" ]

/-- The `MODEL_NOT_FOUND` error raised by `AIService._validate_model_request`
(`src/services/ai_service.py`, line 44). -/
def modelNotFoundError (modelId : String) : ApiError :=
  { statusCode := 400,
    message := "Model '" ++ modelId ++ "' not found",
    code := "MODEL_NOT_FOUND" }

/-- The `PROVIDER_MODEL_MISMATCH` message built by
`AIService._validate_model_request` (`src/services/ai_service.py`,
lines 49-50). -/
def mismatchMessage (modelId : String) (modelProv reqProv : AIProvider) : String :=
  "Model '" ++ modelId ++ "' belongs to provider '" ++ modelProv.value ++
    "', not '" ++ reqProv.value ++ "'"

/-- `AIService._validate_model_request` (`src/services/ai_service.py`,
lines 28-54), parameterized by the scanned model list.  The source scans
a name `ALL_MODELS` imported from `src.types.api`; that module defines
no such name (see the claim about model resolution), while every other
consumer of the combined catalog uses `get_all_models()`, so callers
here pass `getAllModels s`.  Line 41 is a first-match scan
(`next((m for m in ALL_MODELS if m.id == request.model), None)`),
embedded as `List.find?`. -/
def validateModelRequest (models : List AIModel) (req : CompletionRequest) :
    Except ApiError AIModel :=
  match models.find? (fun m => m.id == req.model) with
  | none => .error (modelNotFoundError req.model)
  | some m =>
    match req.provider with
    | some p =>
      if p ≠ m.provider then
        .error { statusCode := 400,
                 message := mismatchMessage req.model m.provider p,
                 code := "PROVIDER_MODEL_MISMATCH" }
      else .ok m
    | none => .ok m

/-- A Python exception escaping an adapter call: an `ApiError` (the
mapped domain error), a raw `KeyError` from optimistic payload
indexing, or a raw `AttributeError` (e.g. attribute access on `None`). -/
inductive PyErr where
  | api (e : ApiError)
  | keyError (key : String)
  | attributeError (attr : String)
deriving DecidableEq, Repr

/-- The per-provider completion and streaming entry points invoked by
`AIService` (`DeepSeekService.generate_completion`, etc.).  Their
behaviour depends on the upstream world, so the dispatch layer is
modelled over an arbitrary family of adapter outcomes; an outcome is a
response, a raised `ApiError`, or a raw Python exception escaping the
adapter (see `deepseekGenerateCompletion` for how the deepseek adapter
produces a raw `KeyError`). -/
structure Adapters where
  openaiComplete : CompletionRequest → Except PyErr CompletionResponse
  deepseekComplete : CompletionRequest → Except PyErr CompletionResponse
  litellmComplete : CompletionRequest → Except PyErr CompletionResponse
  openaiCompatibleComplete : CompletionRequest → Except PyErr CompletionResponse
  openaiStream : CompletionRequest → Except PyErr (List StreamChunk)
  openaiCompatibleStream : CompletionRequest → Except PyErr (List StreamChunk)

/-- The adapter lookup dict of `AIService.generate_completion`
(`src/services/ai_service.py`, lines 114-119): a total table over the
four providers; a missing key would raise `KeyError`, modelled as
`none`. -/
def completionTable (A : Adapters) :
    AIProvider → Option (CompletionRequest → Except PyErr CompletionResponse)
  | .openai => some A.openaiComplete
  | .deepseek => some A.deepseekComplete
  | .litellm => some A.litellmComplete
  | .openaiCompatible => some A.openaiCompatibleComplete

/-- The adapter lookup dict in the `else` branch of
`AIService.generate_stream` (`src/services/ai_service.py`, lines 80-83):
only `deepseek` and `litellm` have entries. -/
def streamFallbackTable (A : Adapters) :
    AIProvider → Option (CompletionRequest → Except PyErr CompletionResponse)
  | .deepseek => some A.deepseekComplete
  | .litellm => some A.litellmComplete
  | _ => none

/-- The `UNSUPPORTED_PROVIDER` error raised when a dict lookup misses
(`src/services/ai_service.py`, lines 94-96 and 120-122). -/
def unsupportedProviderError (p : AIProvider) : ApiError :=
  { statusCode := 500,
    message := "Unsupported provider: " ++ p.value,
    code := "UNSUPPORTED_PROVIDER" }

/-- The single synthesized chunk of the streaming-emulation fallback
(`src/services/ai_service.py`, lines 85-93): the full response content,
`finish_reason = "stop"`, `is_last_chunk = True`. -/
def fallbackChunk (resp : CompletionResponse) : StreamChunk :=
  { id := resp.id, model := resp.model, provider := resp.provider,
    content := resp.content, createdAt := resp.createdAt,
    finishReason := some "stop", isLastChunk := true }

/-- `AIService.generate_completion` (`src/services/ai_service.py`,
lines 98-122): validate (before the `try`, so a validation `ApiError`
propagates unwrapped), then dispatch through the lookup table.  The
`try` block wraps both the dict lookup and the awaited adapter call, so
its `except KeyError` catches not only a table miss but also a raw
`KeyError` raised by the adapter itself (e.g. on a malformed 2xx
payload), re-raising either as 500 `UNSUPPORTED_PROVIDER`; other
exceptions (`ApiError`, `AttributeError`) propagate unchanged. -/
def generateCompletion (A : Adapters) (s : RegistryState)
    (req : CompletionRequest) : Except PyErr CompletionResponse :=
  match validateModelRequest (getAllModels s) req with
  | .error e => .error (.api e)
  | .ok m =>
    match completionTable A m.provider with
    | none => .error (.api (unsupportedProviderError m.provider))
    | some f =>
      match f req with
      | .ok resp => .ok resp
      | .error (.api a) => .error (.api a)
      | .error (.keyError _) => .error (.api (unsupportedProviderError m.provider))
      | .error (.attributeError a) => .error (.attributeError a)

/-- `AIService.generate_stream` (`src/services/ai_service.py`,
lines 56-96): validate (before the `try`); native streaming for
`openai` and `openai_compatible`; otherwise the
simulate-with-completion fallback that yields one synthesized chunk.
The `try` wraps every branch, so its `except KeyError` converts both a
fallback-dict miss and a raw `KeyError` raised by the invoked adapter
into 500 `UNSUPPORTED_PROVIDER`; other exceptions propagate. -/
def generateStream (A : Adapters) (s : RegistryState)
    (req : CompletionRequest) : Except PyErr (List StreamChunk) :=
  match validateModelRequest (getAllModels s) req with
  | .error e => .error (.api e)
  | .ok m =>
    if m.provider = .openai then
      match A.openaiStream req with
      | .error (.keyError _) => .error (.api (unsupportedProviderError m.provider))
      | r => r
    else if m.provider = .openaiCompatible then
      match A.openaiCompatibleStream req with
      | .error (.keyError _) => .error (.api (unsupportedProviderError m.provider))
      | r => r
    else
      match streamFallbackTable A m.provider with
      | none => .error (.api (unsupportedProviderError m.provider))
      | some f =>
        match f req with
        | .ok resp => .ok [fallbackChunk resp]
        | .error (.keyError _) => .error (.api (unsupportedProviderError m.provider))
        | .error e => .error e

/-! ### Stream normalizer

`OpenAIService.generate_stream` (`src/services/openai_service.py`,
lines 151-192) and `OpenAICompatibleService.generate_stream`
(`src/services/openai_compatible_service.py`, lines 124-181) run the
same frame loop; the embedding below is shared, parameterized by the
provider tag each service stamps on its chunks. -/

/-- One event frame of the upstream SSE transport, after the loop has
skipped blank lines and stripped the `data: ` framing:
either the `[DONE]` sentinel, a JSON payload (optional `id`/`model`
overrides, content delta defaulting to `""`, optional `finish_reason`),
or a line that fails to parse as JSON (`malformed`, which the loop
logs and skips). -/
inductive Frame where
  | done
  | payload (id? : Option String) (model? : Option String)
      (delta : String) (finish : Option String)
  | malformed
deriving DecidableEq, Repr

/-- Chunk constructor shared by the two streaming loops
(`_create_stream_chunk` in `openai_service.py`, inline `StreamChunk(...)`
in `openai_compatible_service.py`).  `now` stands for the wall-clock
`datetime.now().isoformat()` reading. -/
def mkStreamChunk (prov : AIProvider) (now cid mdl content : String)
    (finish : Option String) (isLast : Bool) : StreamChunk :=
  { id := cid, model := mdl, provider := prov, content := content,
    createdAt := now, finishReason := finish, isLastChunk := isLast }

/-- The frame loop of `generate_stream`: `cid`/`mdl` are the running
chunk id and model name (seeded with synthesized placeholders and
overwritten by frames that carry real values), `acc` the accumulated
content.  A `[DONE]` sentinel yields one terminal chunk carrying the
accumulated content and stops; a payload frame yields a delta chunk
when its content delta is non-empty (Python truthiness) and a terminal
chunk with empty content when its `finish_reason` is truthy, stopping
the loop; malformed frames are skipped. -/
def processFrames (prov : AIProvider) (now : String) :
    String → String → String → List Frame → List StreamChunk
  | _, _, _, [] => []
  | cid, mdl, acc, .malformed :: rest => processFrames prov now cid mdl acc rest
  | cid, mdl, acc, .done :: _ =>
      [mkStreamChunk prov now cid mdl acc (some "stop") true]
  | cid, mdl, acc, .payload id? model? delta finish :: rest =>
      let cid' := id?.getD cid
      let mdl' := model?.getD mdl
      if delta ≠ "" then
        mkStreamChunk prov now cid' mdl' delta none false ::
          (match finish with
           | some fr =>
             if fr ≠ "" then [mkStreamChunk prov now cid' mdl' "" (some fr) true]
             else processFrames prov now cid' mdl' (acc ++ delta) rest
           | none => processFrames prov now cid' mdl' (acc ++ delta) rest)
      else
        match finish with
        | some fr =>
          if fr ≠ "" then [mkStreamChunk prov now cid' mdl' "" (some fr) true]
          else processFrames prov now cid' mdl' acc rest
        | none => processFrames prov now cid' mdl' acc rest

/-- A frame that makes the loop emit a terminal chunk and stop:
the `[DONE]` sentinel or a payload with a truthy `finish_reason`. -/
def Frame.isTerminator : Frame → Bool
  | .done => true
  | .payload _ _ _ (some fr) => fr ≠ ""
  | _ => false

/-- Whether a frame sequence contains a terminator (a completed
upstream stream always does: SSE streams end with `[DONE]`). -/
def hasTerminator (frames : List Frame) : Bool :=
  frames.any Frame.isTerminator

/-! ### Error mappers -/

/-- The upstream HTTP response attached to a `requests` exception,
reduced to what the error handlers inspect: the status code and the
`error.message` field of the JSON error body when the body parses and
carries one (`e.response.json().get("error", {}).get("message", ...)`),
else `none`. -/
structure HResp where
  status : Nat
  errMsg : Option String
deriving DecidableEq, Repr

/-- A `requests.exceptions.RequestException`: `response` holds the
exception's `response` attribute.  `RequestException.__init__` always
sets that attribute (to `None` when no HTTP response was reached), and
the source requires a requests version with that behaviour (≥ 2.27)
since it references `requests.exceptions.JSONDecodeError`; so
`hasattr(e, "response")` is `True` for every such exception, and
`response = none` here means the attribute is `None`. -/
structure ReqErr where
  response : Option HResp
  text : String
deriving DecidableEq, Repr

/-- `DeepSeekService._handle_api_error` (`src/services/deepseek_service.py`,
lines 37-88).  The `if not hasattr(e, 'response')` guard meant to yield
`DEEPSEEK_CONNECTION_ERROR` never fires (the attribute always exists,
see `ReqErr`), so for a response-less failure the handler itself
crashes on `e.response.status_code` with
`AttributeError: 'NoneType' object has no attribute 'status_code'`,
which escapes unmapped. -/
def deepseekHandleApiError (e : ReqErr) : PyErr :=
  match e.response with
  | none => .attributeError "status_code"
  | some r =>
    .api (
      if r.status = 401 then
        { statusCode := 401, message := "Invalid DeepSeek API key",
          code := "DEEPSEEK_UNAUTHORIZED" }
      else if r.status = 429 then
        { statusCode := 429, message := "DeepSeek rate limit exceeded",
          code := "DEEPSEEK_RATE_LIMIT" }
      else if r.status = 400 then
        { statusCode := 400,
          message := r.errMsg.getD "Bad request to DeepSeek API",
          code := "DEEPSEEK_BAD_REQUEST" }
      else
        { statusCode := r.status,
          message := "DeepSeek API error: " ++ e.text,
          code := "DEEPSEEK_API_ERROR" })

/-- The parsed JSON body of a 2xx DeepSeek completion response, reduced
to the fields `DeepSeekService.generate_completion` reads: `data["id"]`
and `data["model"]` (direct indexing — `none` means the key is absent
and raises `KeyError`), `data["choices"]` (direct indexing; each entry
reduced to its `message.content`, `none` when that path is absent), and
the `usage` block read defensively via `.get`. -/
structure DSBody where
  id? : Option String
  model? : Option String
  choices? : Option (List (Option String))
  usage : UsageInfo
deriving DecidableEq, Repr

/-- The outcome of the upstream HTTP call in
`DeepSeekService.generate_completion`: a `requests` exception (network
failure, or `raise_for_status` on a non-2xx response — the only kind
the source catches), or a 2xx response with a parsed body. -/
inductive DSOutcome where
  | fail (e : ReqErr)
  | ok (body : DSBody)
deriving DecidableEq, Repr

/-- `DeepSeekService.generate_completion`
(`src/services/deepseek_service.py`, lines 107-154).  The `try` block
catches only `requests.exceptions.RequestException` (routed to
`_handle_api_error`); `KeyError` raised by `data["choices"]`,
`data["choices"][0]["message"]["content"]`, `data["id"]` or
`data["model"]` on a malformed 2xx payload is not caught and escapes.
`now` is the `datetime.now().isoformat()` reading. -/
def deepseekGenerateCompletion (now : String) :
    DSOutcome → Except PyErr CompletionResponse
  | .fail e => .error (deepseekHandleApiError e)
  | .ok body =>
    match body.choices? with
    | none => .error (.keyError "choices")
    | some choices =>
      let completion? : Except PyErr String :=
        if choices.isEmpty then .ok ""
        else
          match choices.head? with
          | some (some content) => .ok content
          | _ => .error (.keyError "message")
      match completion? with
      | .error e => .error e
      | .ok completion =>
        match body.id? with
        | none => .error (.keyError "id")
        | some rid =>
          match body.model? with
          | none => .error (.keyError "model")
          | some rmodel =>
            .ok { id := rid, model := rmodel, provider := .deepseek,
                  content := completion, usage := body.usage,
                  createdAt := now }

/-! ### OpenAI completion: exception routing -/

/-- Outcome of one probe request as the availability checks observe it:
an HTTP response with a status code, or any of the exception kinds the
check catches (all of which it maps to `False`). -/
inductive ProbeOutcome where
  | resp (status : Nat)
  | exn
deriving DecidableEq, Repr

/-- `OpenAIService.check_availability` (`src/services/openai_service.py`,
lines 266-293): placeholder/empty key short-circuits to `False` before
any network call; else `response.status_code == 200`, with every caught
exception returning `False`. -/
def openaiCheckAvailability (key : String) (probe : ProbeOutcome) : Bool :=
  if key = "" || key = "your_openai_api_key_here" then false
  else
    match probe with
    | .resp status => status == 200
    | .exn => false

/-- `DeepSeekService.check_availability`
(`src/services/deepseek_service.py`, lines 156-179): placeholder/empty
key short-circuits to `False`; else `raise_for_status()` (raises for
4xx/5xx, caught, returning `False`) then `True`. -/
def deepseekCheckAvailability (key : String) (probe : ProbeOutcome) : Bool :=
  if key = "" || key = "your_deepseek_api_key_here" then false
  else
    match probe with
    | .resp status => !(400 ≤ status && status < 600)
    | .exn => false

/-- What `LiteLLMService.check_availability` observes of its probe: an
exception, or a response whose parsed JSON body is reduced to its
Python truthiness and whether its `data` field is a list
(`data and isinstance(data.get("data"), list)`). -/
inductive LLProbeOutcome where
  | resp (status : Nat) (bodyTruthy : Bool) (dataIsList : Bool)
  | exn
deriving DecidableEq, Repr

/-- `LiteLLMService.check_availability`
(`src/services/litellm_service.py`, lines 159-186): placeholder/empty
key returns `False` (checked inside the `try`); `raise_for_status()`
on 4xx/5xx is caught and returns `False`; else the truthiness/shape
check on the body. -/
def litellmCheckAvailability (key : String) (probe : LLProbeOutcome) : Bool :=
  if key = "" || key = "your_litellm_api_key_here" then false
  else
    match probe with
    | .resp status bodyTruthy dataIsList =>
      if 400 ≤ status && status < 600 then false
      else bodyTruthy && dataIsList
    | .exn => false

/-- `OpenAICompatibleService.check_availability`
(`src/services/openai_compatible_service.py`, lines 250-298):
placeholder/empty key returns `False` with no network call; then the
models-endpoint probe (200 → `True`), then one chat probe per entry of
`COMMON_MODELS` (any 200 → `True`); every probe exception is swallowed
and the final statement returns `True` unconditionally ("Return True if
API key is configured, as user might know the correct model"). -/
def openaiCompatibleCheckAvailability (key : String)
    (modelsProbe : ProbeOutcome) (chatProbes : List ProbeOutcome) : Bool :=
  if key = "" || key = "your_openai_compatible_api_key_here" then false
  else if (match modelsProbe with | .resp s => s == 200 | .exn => false) then true
  else if chatProbes.any (fun p => match p with | .resp s => s == 200 | .exn => false)
  then true
  else true

/-! ### LiteLLM dynamic-catalog refresh -/

/-- One entry of the `data` array in the LiteLLM `/models` response,
reduced to the fields `LiteLLMService.get_models` reads: `model["id"]`
(direct indexing — `none` raises `KeyError`) and
`model.get("owned_by", "Unknown")`. -/
structure LMEntry where
  id? : Option String
  ownedBy : Option String
deriving DecidableEq, Repr

/-- Outcome of the models fetch in `LiteLLMService.get_models`: any
`requests.exceptions.RequestException` (network error, HTTP error from
`raise_for_status`, JSON decode error — all caught and turned into
`[]`), or a successful response with the entries of `data.get("data", [])`. -/
inductive LLFetch where
  | reqError
  | ok (entries : List LMEntry)
deriving DecidableEq, Repr

/-- Python's `str.capitalize` on one word: first character upper-cased,
the rest lower-cased. -/
def capitalizeWord (w : String) : String :=
  match w.data with
  | [] => ""
  | c :: cs => String.mk (c.toUpper :: cs.map Char.toLower)

/-- The display name `get_models` builds:
`" ".join(word.capitalize() for word in model["id"].split("-"))`. -/
def litellmModelName (id : String) : String :=
  String.intercalate " " ((id.splitOn "-").map capitalizeWord)

/-- The `AIModel` `get_models` constructs per entry
(`src/services/litellm_service.py`, lines 144-153). -/
def mkLitellmModel (id : String) (ownedBy : Option String) : AIModel :=
  { id := id, name := litellmModelName id, provider := .litellm,
    description := some (ownedBy.getD "Unknown" ++ " model"),
    maxTokens := some 100000 }

/-- `LiteLLMService.get_models` (`src/services/litellm_service.py`,
lines 116-157): placeholder/empty key returns `[]`; **any**
`RequestException` is caught and `[]` is returned (lines 155-157) even
though the docstring documents "Raises: ApiError: If any error occurs
during API communication"; a `KeyError` from `model["id"]` on a
malformed entry escapes uncaught. -/
def litellmGetModels (key : String) (fetch : LLFetch) :
    Except PyErr (List AIModel) :=
  if key = "" || key = "your_litellm_api_key_here" then .ok []
  else
    match fetch with
    | .reqError => .ok []
    | .ok entries =>
      entries.mapM (fun en =>
        match en.id? with
        | none => .error (.keyError "id")
        | some id => .ok (mkLitellmModel id en.ownedBy))

/-- The litellm-catalog refresh performed by
`AIService.get_available_providers` when the litellm probe reports
available (`src/services/ai_service.py`, lines 136-147): fetch models
and install them via `update_litellm_models`; every exception kind the
`except` clauses enumerate (`ConnectionError`/`TimeoutError`,
`ValueError`/`TypeError`, `KeyError`/`AttributeError`,
`ImportError`/`ModuleNotFoundError` — which covers every raw exception
the modelled fetch can raise) is logged and leaves the registry
untouched. -/
def refreshLitellmCatalog (key : String) (fetch : LLFetch)
    (s : RegistryState) : RegistryState :=
  match litellmGetModels key fetch with
  | .ok models => updateLitellmModels models s
  | .error _ => s

/-! ### Concrete fixtures used by witnesses -/

/-- The `deepseek-chat` entry of `DEEPSEEK_MODELS`. -/
def dsChatModel : AIModel :=
  { id := "deepseek-chat", name := "DeepSeek Chat", provider := .deepseek,
    description := some "General purpose chat model", maxTokens := some 32768 }

/-- The `gpt-4o` entry of `OPENAI_MODELS`. -/
def gpt4oModel : AIModel :=
  { id := "gpt-4o", name := "GPT-4o", provider := .openai,
    description := some "Most capable model for complex tasks",
    maxTokens := some 128000 }

/-- A fixed upstream completion used to instantiate witnesses. -/
def mockResponse : CompletionResponse :=
  { id := "resp-1", model := "deepseek-chat", provider := .deepseek,
    content := "hello", usage := {}, createdAt := "t0" }

/-- Adapters whose every call succeeds with `mockResponse` (streams
yield no chunks); used to instantiate dispatch-level witnesses. -/
def mockAdapters : Adapters :=
  { openaiComplete := fun _ => .ok mockResponse,
    deepseekComplete := fun _ => .ok mockResponse,
    litellmComplete := fun _ => .ok mockResponse,
    openaiCompatibleComplete := fun _ => .ok mockResponse,
    openaiStream := fun _ => .ok [],
    openaiCompatibleStream := fun _ => .ok [] }

/-- A request for a deepseek model, with no explicit provider. -/
def dsRequest : CompletionRequest := { model := "deepseek-chat", prompt := "hi" }

/-- A malformed 2xx DeepSeek payload: it has `choices` (empty) but no
`id`, so `data["id"]` raises `KeyError`. -/
def badDSBody : DSBody :=
  { id? := none, model? := some "deepseek-chat", choices? := some [],
    usage := {} }

/-- Adapters whose deepseek completion is the real
`deepseekGenerateCompletion` run against the malformed 2xx payload
`badDSBody` (raising a raw `KeyError`), everything else succeeding. -/
def keyErrAdapters : Adapters :=
  { mockAdapters with
    deepseekComplete := fun _ => deepseekGenerateCompletion "t0" (.ok badDSBody) }

/-! ## Claims -/

/-- C1: model resolution is claimed to scan the registry's combined
catalog `listAll()` (openai ++ deepseek ++ litellm ++ openai_compatible,
as it stands at query time), first match winning, with `MODEL_NOT_FOUND`
(400) on a miss.  The resolution logic of
`AIService._validate_model_request` (first-match scan, 400
`MODEL_NOT_FOUND`) does behave that way over whatever list it is given,
but the list it actually names, `ALL_MODELS`, is imported from
`src.types.api` which defines no such name: the module cannot even be
imported, so resolution never consults the registry at query time.
This theorem records the import mismatch together with the behaviour
of the scan logic over the registry's combined catalog. -/
theorem c1_resolution_scans_undefined_catalog :
    ("ALL_MODELS" ∈ aiServiceTypesApiImports ∧
     "ALL_MODELS" ∉ typesApiModuleNames) ∧
    validateModelRequest (getAllModels registryInit)
        { model := "not-a-real-model", prompt := "hi" } =
      .error { statusCode := 400,
               message := "Model 'not-a-real-model' not found",
               code := "MODEL_NOT_FOUND" } ∧
    validateModelRequest (getAllModels registryInit)
        { model := "gpt-4o", prompt := "hi" } = .ok gpt4oModel ∧
    validateModelRequest
        (getAllModels (updateLitellmModels
          [{ id := "gpt-4o", name := "Gpt 4o", provider := .litellm }]
          registryInit))
        { model := "gpt-4o", prompt := "hi" } = .ok gpt4oModel := by
  exact ⟨⟨by decide, by decide⟩, rfl, rfl, rfl⟩

/-- C8: whenever the request carries an explicit provider that differs
from the resolved model's provider, validation fails with
`PROVIDER_MODEL_MISMATCH`, status 400, and the message contains both
the resolved model's provider name and the requested provider name
(exhibited as sublists of the message's character data). -/
theorem c8_provider_model_mismatch
    (models : List AIModel) (req : CompletionRequest) (m : AIModel)
    (p : AIProvider)
    (hfind : models.find? (fun x => x.id == req.model) = some m)
    (hp : req.provider = some p) (hne : p ≠ m.provider) :
    validateModelRequest models req =
      .error { statusCode := 400,
               message := mismatchMessage req.model m.provider p,
               code := "PROVIDER_MODEL_MISMATCH" } ∧
    ∃ pre mid post,
      (mismatchMessage req.model m.provider p).data =
        pre ++ (m.provider.value).data ++ mid ++ (p.value).data ++ post := by
  constructor
  · simp [validateModelRequest, hfind, hp, hne]
  · refine ⟨("Model '" ++ req.model ++ "' belongs to provider '").data,
      "', not '".data, "'".data, ?_⟩
    simp [mismatchMessage, String.data_append]

/-- C8 witness: requesting the openai model `gpt-4o` with explicit
provider `deepseek` fails with `PROVIDER_MODEL_MISMATCH` and a message
naming both providers. -/
theorem c8_witness :
    validateModelRequest (getAllModels registryInit)
        { model := "gpt-4o", prompt := "hi", provider := some .deepseek } =
      .error { statusCode := 400,
               message := mismatchMessage "gpt-4o" .openai .deepseek,
               code := "PROVIDER_MODEL_MISMATCH" } ∧
    ∃ pre mid post,
      (mismatchMessage "gpt-4o" AIProvider.openai AIProvider.deepseek).data =
        pre ++ (AIProvider.openai.value).data ++ mid ++
          (AIProvider.deepseek.value).data ++ post := by
  exact c8_provider_model_mismatch (getAllModels registryInit)
    { model := "gpt-4o", prompt := "hi", provider := some .deepseek }
    gpt4oModel .deepseek rfl rfl (by decide)

/-- C10 counterexample: the claim says dispatch never fails with
`UNSUPPORTED_PROVIDER` for a validated request, but the dispatcher's
`except KeyError` wraps the awaited adapter call, so the raw `KeyError`
the deepseek adapter raises on a malformed 2xx payload (a 200 body with
`choices` but no `id`) is re-raised as 500 `UNSUPPORTED_PROVIDER` for
the fully validated request `deepseek-chat`, in both the completion and
the streaming-fallback path. -/
theorem c10_counterexample :
    validateModelRequest (getAllModels registryInit) dsRequest =
      .ok dsChatModel ∧
    keyErrAdapters.deepseekComplete dsRequest = .error (.keyError "id") ∧
    generateCompletion keyErrAdapters registryInit dsRequest =
      .error (.api (unsupportedProviderError .deepseek)) ∧
    generateStream keyErrAdapters registryInit dsRequest =
      .error (.api (unsupportedProviderError .deepseek)) ∧
    (unsupportedProviderError .deepseek).statusCode = 500 ∧
    (unsupportedProviderError .deepseek).code = "UNSUPPORTED_PROVIDER" := by
  exact ⟨rfl, rfl, rfl, rfl, rfl, rfl⟩

/-- C10 (amended): the adapter lookup tables do cover every member of
the closed provider enumeration that can reach them, so a table miss
never occurs; whenever the selected adapter raises no raw `KeyError`,
dispatch returns the adapter's (or the fallback's mapped) result
unchanged and in particular cannot produce `UNSUPPORTED_PROVIDER`; but
the surrounding `except KeyError` also catches a `KeyError` raised by
the adapter itself, and exactly then a validated request fails with
500 `UNSUPPORTED_PROVIDER`. -/
theorem c10_dispatch_amended
    (A : Adapters) (s : RegistryState) (req : CompletionRequest)
    (m : AIModel)
    (hv : validateModelRequest (getAllModels s) req = .ok m) :
    (∀ p, (completionTable A p).isSome = true) ∧
    (∀ p, p ≠ .openai → p ≠ .openaiCompatible →
      (streamFallbackTable A p).isSome = true) ∧
    (∃ f, completionTable A m.provider = some f ∧
      ((∀ k, f req ≠ .error (.keyError k)) →
        generateCompletion A s req = f req) ∧
      (∀ k, f req = .error (.keyError k) →
        generateCompletion A s req =
          .error (.api (unsupportedProviderError m.provider)))) ∧
    (m.provider ≠ .openai → m.provider ≠ .openaiCompatible →
      ∃ f, streamFallbackTable A m.provider = some f ∧
        ((∀ k, f req ≠ .error (.keyError k)) →
          generateStream A s req =
            (f req).map (fun resp => [fallbackChunk resp])) ∧
        (∀ k, f req = .error (.keyError k) →
          generateStream A s req =
            .error (.api (unsupportedProviderError m.provider)))) := by
  refine ⟨?_, ?_, ?_, ?_⟩
  · intro p; cases p <;> rfl
  · intro p h1 h2
    cases p with
    | openai => exact absurd rfl h1
    | deepseek => rfl
    | litellm => rfl
    | openaiCompatible => exact absurd rfl h2
  · obtain ⟨f, hf⟩ : ∃ f, completionTable A m.provider = some f := by
      cases m.provider <;> exact ⟨_, rfl⟩
    refine ⟨f, hf, ?_, ?_⟩
    · intro hk
      cases hfr : f req with
      | ok resp => simp [generateCompletion, hv, hf, hfr]
      | error pe =>
        cases pe with
        | api a => simp [generateCompletion, hv, hf, hfr]
        | keyError k => exact absurd hfr (hk k)
        | attributeError a => simp [generateCompletion, hv, hf, hfr]
    · intro k hk
      simp [generateCompletion, hv, hf, hk]
  · intro h1 h2
    obtain ⟨f, hf⟩ : ∃ f, streamFallbackTable A m.provider = some f := by
      cases hm : m.provider with
      | openai => exact absurd hm h1
      | deepseek => exact ⟨_, rfl⟩
      | litellm => exact ⟨_, rfl⟩
      | openaiCompatible => exact absurd hm h2
    refine ⟨f, hf, ?_, ?_⟩
    · intro hk
      cases hfr : f req with
      | ok resp => simp [generateStream, hv, hf, hfr, h1, h2, Except.map]
      | error pe =>
        cases pe with
        | api a => simp [generateStream, hv, hf, hfr, h1, h2, Except.map]
        | keyError k => exact absurd hfr (hk k)
        | attributeError a =>
          simp [generateStream, hv, hf, hfr, h1, h2, Except.map]
    · intro k hk
      simp [generateStream, hv, hf, hk, h1, h2]

/-- C10 witness: with all-succeeding adapters and a validated deepseek
request, the tables are total, dispatch reaches the deepseek adapter,
and the streaming fallback maps its result. -/
theorem c10_witness :
    (∀ p, (completionTable mockAdapters p).isSome = true) ∧
    (∀ p, p ≠ .openai → p ≠ .openaiCompatible →
      (streamFallbackTable mockAdapters p).isSome = true) ∧
    (∃ f, completionTable mockAdapters dsChatModel.provider = some f ∧
      ((∀ k, f dsRequest ≠ .error (.keyError k)) →
        generateCompletion mockAdapters registryInit dsRequest = f dsRequest) ∧
      (∀ k, f dsRequest = .error (.keyError k) →
        generateCompletion mockAdapters registryInit dsRequest =
          .error (.api (unsupportedProviderError dsChatModel.provider)))) ∧
    (dsChatModel.provider ≠ .openai → dsChatModel.provider ≠ .openaiCompatible →
      ∃ f, streamFallbackTable mockAdapters dsChatModel.provider = some f ∧
        ((∀ k, f dsRequest ≠ .error (.keyError k)) →
          generateStream mockAdapters registryInit dsRequest =
            (f dsRequest).map (fun resp => [fallbackChunk resp])) ∧
        (∀ k, f dsRequest = .error (.keyError k) →
          generateStream mockAdapters registryInit dsRequest =
            .error (.api (unsupportedProviderError dsChatModel.provider)))) := by
  exact c10_dispatch_amended mockAdapters registryInit dsRequest
    dsChatModel rfl

/-- C2: for a validated request whose resolved provider has no native
streaming (deepseek, litellm), the streaming dispatch calls exactly the
adapter function the non-streaming dispatch uses; on success it yields
exactly one chunk whose content equals the response content with
`finish_reason = "stop"` and `is_last_chunk = true`; and it fails with
an error exactly when — and with exactly the same error as — the
non-streaming completion dispatch does for the same request (both paths
share the `except KeyError` conversion and propagate other exceptions
unchanged). -/
theorem c2_streaming_emulation_fallback
    (A : Adapters) (s : RegistryState) (req : CompletionRequest)
    (m : AIModel)
    (hv : validateModelRequest (getAllModels s) req = .ok m)
    (hp : m.provider = .deepseek ∨ m.provider = .litellm) :
    ∃ f, streamFallbackTable A m.provider = some f ∧
      completionTable A m.provider = some f ∧
      (∀ resp, f req = .ok resp →
        generateCompletion A s req = .ok resp ∧
        generateStream A s req =
          .ok [{ id := resp.id, model := resp.model, provider := resp.provider,
                 content := resp.content, createdAt := resp.createdAt,
                 finishReason := some "stop", isLastChunk := true }]) ∧
      (∀ e, generateStream A s req = .error e ↔
        generateCompletion A s req = .error e) := by
  have main : ∀ g, streamFallbackTable A m.provider = some g →
      completionTable A m.provider = some g →
      (∀ resp, g req = .ok resp →
        generateCompletion A s req = .ok resp ∧
        generateStream A s req =
          .ok [{ id := resp.id, model := resp.model, provider := resp.provider,
                 content := resp.content, createdAt := resp.createdAt,
                 finishReason := some "stop", isLastChunk := true }]) ∧
      (∀ e, generateStream A s req = .error e ↔
        generateCompletion A s req = .error e) := by
    intro g hg hcg
    have hno : m.provider ≠ .openai ∧ m.provider ≠ .openaiCompatible := by
      rcases hp with hp | hp <;> simp [hp]
    constructor
    · intro resp h
      constructor
      · simp [generateCompletion, hv, hcg, h]
      · simp [generateStream, hv, hg, h, hno.1, hno.2, fallbackChunk]
    · intro e
      cases hfr : g req with
      | ok resp =>
        simp [generateCompletion, generateStream, hv, hg, hcg, hfr,
          hno.1, hno.2]
      | error pe =>
        cases pe <;>
          simp [generateCompletion, generateStream, hv, hg, hcg, hfr,
            hno.1, hno.2]
  rcases hp with hp | hp
  · exact ⟨A.deepseekComplete,
      by simp [streamFallbackTable, hp], by simp [completionTable, hp],
      main A.deepseekComplete (by simp [streamFallbackTable, hp])
        (by simp [completionTable, hp])⟩
  · exact ⟨A.litellmComplete,
      by simp [streamFallbackTable, hp], by simp [completionTable, hp],
      main A.litellmComplete (by simp [streamFallbackTable, hp])
        (by simp [completionTable, hp])⟩

/-- C2 witness: with all-succeeding adapters, streaming a deepseek
request yields exactly the one synthesized chunk built from the
non-streaming completion, with identical error behaviour. -/
theorem c2_witness :
    ∃ f, streamFallbackTable mockAdapters dsChatModel.provider = some f ∧
      completionTable mockAdapters dsChatModel.provider = some f ∧
      (∀ resp, f dsRequest = .ok resp →
        generateCompletion mockAdapters registryInit dsRequest = .ok resp ∧
        generateStream mockAdapters registryInit dsRequest =
          .ok [{ id := resp.id, model := resp.model, provider := resp.provider,
                 content := resp.content, createdAt := resp.createdAt,
                 finishReason := some "stop", isLastChunk := true }]) ∧
      (∀ e, generateStream mockAdapters registryInit dsRequest = .error e ↔
        generateCompletion mockAdapters registryInit dsRequest = .error e) := by
  exact c2_streaming_emulation_fallback mockAdapters registryInit dsRequest
    dsChatModel rfl (Or.inl rfl)

/-- C3: the stream normalizer maps every frame carrying a non-empty
content delta (and no finish reason) to one chunk with that delta,
`finish_reason = none`, `is_last_chunk = false`, while accumulating the
delta; maps the `[DONE]` sentinel to one terminal chunk carrying all
accumulated content with `finish_reason = "stop"`, `is_last_chunk =
true`, ending the sequence; and on the frame sequence
`[delta "Hello", delta " world", finish_reason "stop"]` produces
exactly `["Hello", last=false], [" world", last=false],
["", "stop", last=true]` and then ends. -/
theorem c3_stream_normalizer (prov : AIProvider) (now cid mdl acc : String) :
    (∀ id? model? delta rest, delta ≠ "" →
      processFrames prov now cid mdl acc (.payload id? model? delta none :: rest) =
        mkStreamChunk prov now (id?.getD cid) (model?.getD mdl) delta none false ::
          processFrames prov now (id?.getD cid) (model?.getD mdl)
            (acc ++ delta) rest) ∧
    (∀ rest, processFrames prov now cid mdl acc (.done :: rest) =
      [mkStreamChunk prov now cid mdl acc (some "stop") true]) ∧
    processFrames prov now cid mdl ""
        [.payload none none "Hello" none, .payload none none " world" none,
         .payload none none "" (some "stop")] =
      [mkStreamChunk prov now cid mdl "Hello" none false,
       mkStreamChunk prov now cid mdl " world" none false,
       mkStreamChunk prov now cid mdl "" (some "stop") true] := by
  refine ⟨?_, ?_, ?_⟩
  · intro id? model? delta rest h
    simp [processFrames, h]
  · intro rest
    simp [processFrames]
  · rfl

/-- C3 witness: one non-empty delta frame followed by the sentinel
yields the delta chunk and then the terminal chunk carrying the
accumulated content. -/
theorem c3_witness :
    processFrames .openai "t0" "chatcmpl-0" "gpt-4o" ""
        [.payload none none "Hi" none, .done] =
      [mkStreamChunk .openai "t0" "chatcmpl-0" "gpt-4o" "Hi" none false,
       mkStreamChunk .openai "t0" "chatcmpl-0" "gpt-4o" "Hi" (some "stop") true] := by
  have h := (c3_stream_normalizer .openai "t0" "chatcmpl-0" "gpt-4o" "").1
    none none "Hi" [.done] (by decide)
  have h2 := (c3_stream_normalizer .openai "t0" "chatcmpl-0" "gpt-4o" ("" ++ "Hi")).2.1
    ([] : List Frame)
  simpa [h2] using h

/-- C5: every chunk sequence the native streaming loop produces from a
frame sequence containing a terminator (the `[DONE]` sentinel or a
truthy `finish_reason`) contains exactly one terminal chunk
(`is_last_chunk = true`), it is the final element, and nothing follows
it. -/
theorem c5_exactly_one_terminal_chunk
    (prov : AIProvider) (now : String) (frames : List Frame)
    (cid mdl acc : String) (h : hasTerminator frames = true) :
    ∃ pre c, processFrames prov now cid mdl acc frames = pre ++ [c] ∧
      c.isLastChunk = true ∧ ∀ x ∈ pre, x.isLastChunk = false := by
  induction frames generalizing cid mdl acc with
  | nil => simp [hasTerminator] at h
  | cons f rest ih =>
    cases f with
    | malformed =>
      simp only [hasTerminator, List.any_cons, Frame.isTerminator,
        Bool.false_or] at h
      simpa only [processFrames] using ih cid mdl acc h
    | done =>
      exact ⟨[], mkStreamChunk prov now cid mdl acc (some "stop") true,
        by simp [processFrames], rfl, by simp⟩
    | payload id? model? delta finish =>
      by_cases hd : delta = ""
      · subst hd
        cases finish with
        | none =>
          simp only [hasTerminator, List.any_cons, Frame.isTerminator,
            Bool.false_or] at h
          simpa only [processFrames, reduceIte, ne_eq, not_true_eq_false] using
            ih (id?.getD cid) (model?.getD mdl) acc h
        | some fr =>
          by_cases hfr : fr = ""
          · subst hfr
            simp only [hasTerminator, List.any_cons, Frame.isTerminator,
              ne_eq, not_true_eq_false, decide_False, Bool.false_or] at h
            simpa only [processFrames, reduceIte] using
              ih (id?.getD cid) (model?.getD mdl) acc h
          · refine ⟨[], mkStreamChunk prov now (id?.getD cid) (model?.getD mdl)
              "" (some fr) true, ?_, rfl, by simp⟩
            simp [processFrames, hfr]
      · cases finish with
        | none =>
          simp only [hasTerminator, List.any_cons, Frame.isTerminator,
            Bool.false_or] at h
          obtain ⟨pre, c, heq, hc, hpre⟩ :=
            ih (id?.getD cid) (model?.getD mdl) (acc ++ delta) h
          refine ⟨mkStreamChunk prov now (id?.getD cid) (model?.getD mdl)
            delta none false :: pre, c, ?_, hc, ?_⟩
          · simp [processFrames, hd, heq]
          · intro x hx
            rcases List.mem_cons.mp hx with hx | hx
            · simp [hx, mkStreamChunk]
            · exact hpre x hx
        | some fr =>
          by_cases hfr : fr = ""
          · subst hfr
            simp only [hasTerminator, List.any_cons, Frame.isTerminator,
              ne_eq, not_true_eq_false, decide_False, Bool.false_or] at h
            obtain ⟨pre, c, heq, hc, hpre⟩ :=
              ih (id?.getD cid) (model?.getD mdl) (acc ++ delta) h
            refine ⟨mkStreamChunk prov now (id?.getD cid) (model?.getD mdl)
              delta none false :: pre, c, ?_, hc, ?_⟩
            · simp [processFrames, hd, heq]
            · intro x hx
              rcases List.mem_cons.mp hx with hx | hx
              · simp [hx, mkStreamChunk]
              · exact hpre x hx
          · refine ⟨[mkStreamChunk prov now (id?.getD cid) (model?.getD mdl)
              delta none false],
              mkStreamChunk prov now (id?.getD cid) (model?.getD mdl)
                "" (some fr) true, ?_, rfl, ?_⟩
            · simp [processFrames, hd, hfr]
            · intro x hx
              simp only [List.mem_singleton] at hx
              simp [hx, mkStreamChunk]

/-- C5 witness: the frame sequence of the C3 round-trip contains a
terminator, and the produced sequence has its single terminal chunk
in final position. -/
theorem c5_witness :
    ∃ pre c,
      processFrames AIProvider.openai "t0" "chatcmpl-0" "gpt-4o" ""
          [.payload none none "Hello" none, .done] = pre ++ [c] ∧
      c.isLastChunk = true ∧ ∀ x ∈ pre, x.isLastChunk = false := by
  exact c5_exactly_one_terminal_chunk AIProvider.openai "t0"
    [.payload none none "Hello" none, .done] "chatcmpl-0" "gpt-4o" "" (by decide)

/-- C6 counterexample: the claim says every adapter's availability check
returns `false` on any probe error, but
`OpenAICompatibleService.check_availability` with a configured
(non-placeholder) key returns `True` even when the models probe and
every chat probe raise. -/
theorem c6_counterexample :
    openaiCompatibleCheckAvailability "sk-live" .exn
      [.exn, .exn, .exn, .exn, .exn] = true := by
  rfl

/-- C6 (amended): no availability check propagates a probe error; an
unset or placeholder API key makes every adapter's check return `false`
independently of the probe (hence with no network call); on a probe
error openai, deepseek and litellm return `false`, while
openai_compatible returns `true` whenever a non-placeholder key is
configured, even when every probe fails. -/
theorem c6_availability_amended :
    (∀ p, openaiCheckAvailability "" p = false ∧
      openaiCheckAvailability "your_openai_api_key_here" p = false) ∧
    (∀ p, deepseekCheckAvailability "" p = false ∧
      deepseekCheckAvailability "your_deepseek_api_key_here" p = false) ∧
    (∀ p, litellmCheckAvailability "" p = false ∧
      litellmCheckAvailability "your_litellm_api_key_here" p = false) ∧
    (∀ mp cps, openaiCompatibleCheckAvailability "" mp cps = false ∧
      openaiCompatibleCheckAvailability
        "your_openai_compatible_api_key_here" mp cps = false) ∧
    (∀ key, openaiCheckAvailability key .exn = false) ∧
    (∀ key, deepseekCheckAvailability key .exn = false) ∧
    (∀ key, litellmCheckAvailability key .exn = false) ∧
    (∀ key mp cps, key ≠ "" →
      key ≠ "your_openai_compatible_api_key_here" →
      openaiCompatibleCheckAvailability key mp cps = true) := by
  refine ⟨?_, ?_, ?_, ?_, ?_, ?_, ?_, ?_⟩
  · intro p; exact ⟨rfl, rfl⟩
  · intro p; exact ⟨rfl, rfl⟩
  · intro p; exact ⟨rfl, rfl⟩
  · intro mp cps; exact ⟨rfl, rfl⟩
  · intro key
    simp only [openaiCheckAvailability]
    split_ifs <;> rfl
  · intro key
    simp only [deepseekCheckAvailability]
    split_ifs <;> rfl
  · intro key
    simp only [litellmCheckAvailability]
    split_ifs <;> rfl
  · intro key mp cps h1 h2
    simp only [openaiCompatibleCheckAvailability]
    rw [if_neg (by simp [h1, h2])]
    split_ifs <;> rfl

/-- C6 witness: the placeholder openai key yields `false` even on a 200
probe, a deepseek probe exception yields `false`, and a configured
openai_compatible key yields `true` with failing probes. -/
theorem c6_witness :
    openaiCheckAvailability "your_openai_api_key_here" (.resp 200) = false ∧
    deepseekCheckAvailability "sk-ds" .exn = false ∧
    openaiCompatibleCheckAvailability "sk-live" .exn [.exn] = true := by
  exact ⟨(c6_availability_amended.1 (.resp 200)).2,
    c6_availability_amended.2.2.2.2.2.1 "sk-ds",
    c6_availability_amended.2.2.2.2.2.2.2 "sk-live" .exn [.exn]
      (by decide) (by decide)⟩

/-- C7: the claim (and the `get_models` docstring, which documents
"Raises: ApiError" on communication errors) says a failed dynamic
refresh leaves the previous litellm catalog in place, and the caller's
`except` clauses in `AIService.get_available_providers` do preserve it
for exceptions that reach them (e.g. the `KeyError` of a malformed
payload entry).  But `LiteLLMService.get_models` swallows every
`requests`-level network error and returns `[]` instead of raising, so
the refresh installs the empty list and clears the catalog: with a
one-model prior catalog, a network-error refresh empties it. -/
theorem c7_network_error_refresh_clears_catalog :
    (refreshLitellmCatalog "sk-litellm" .reqError
        { registryInit with
          litellmModels := [mkLitellmModel "deepseek-r1" (some "deepseek")] }
      ).litellmModels = [] ∧
    [mkLitellmModel "deepseek-r1" (some "deepseek")] ≠ ([] : List AIModel) ∧
    (refreshLitellmCatalog "sk-litellm" (.ok [{ id? := none, ownedBy := none }])
        { registryInit with
          litellmModels := [mkLitellmModel "deepseek-r1" (some "deepseek")] }
      ).litellmModels = [mkLitellmModel "deepseek-r1" (some "deepseek")] := by
  exact ⟨rfl, by simp, rfl⟩

/-- C9 counterexample: the claim says the registry supports an atomic
whole-catalog replace for each dynamic provider including
openai_compatible, but `ModelRegistry` exposes exactly one mutator
(`update_litellm_models`) and no registry operation can make the
openai_compatible catalog equal to an arbitrary new sequence — it stays
at its constructor value. -/
theorem c9_counterexample :
    ¬ ∃ f : List AIModel → RegistryOp,
        ∀ s ms, (applyRegistryOp (f ms) s).openaiCompatibleModels = ms := by
  rintro ⟨f, hf⟩
  have hpres : ∀ op s,
      (applyRegistryOp op s).openaiCompatibleModels =
        s.openaiCompatibleModels := by
    intro op s; cases op; rfl
  have h1 := hf registryInit []
  rw [hpres] at h1
  simp [registryInit, initialOpenAICompatibleModels] at h1

/-- C9 (amended): the registry supports whole-catalog replacement only
for the litellm catalog: `update_litellm_models` is a single state
transition after which the litellm catalog is exactly the new sequence
and the openai_compatible catalog is untouched (no operation ever
changes it), so an observation taken between transitions sees either
the entire old or the entire new litellm catalog, never a mix. -/
theorem c9_atomic_replace_amended (ms : List AIModel) (s : RegistryState) :
    (applyRegistryOp (.updateLitellm ms) s).litellmModels = ms ∧
    (applyRegistryOp (.updateLitellm ms) s).openaiCompatibleModels =
      s.openaiCompatibleModels ∧
    (∀ op, (applyRegistryOp op s).openaiCompatibleModels =
      s.openaiCompatibleModels) ∧
    (∀ t : RegistryState,
      t = s ∨ t = applyRegistryOp (.updateLitellm ms) s →
      t.litellmModels = s.litellmModels ∨ t.litellmModels = ms) := by
  have hrepl : (applyRegistryOp (.updateLitellm ms) s).litellmModels = ms := by
    simp only [applyRegistryOp, updateLitellmModels]
    cases ms with
    | nil => rfl
    | cons a l => rfl
  refine ⟨hrepl, rfl, ?_, ?_⟩
  · intro op; cases op; rfl
  · rintro t (rfl | rfl)
    · exact Or.inl rfl
    · exact Or.inr hrepl

/-- C9 witness: replacing the initially empty litellm catalog with a
one-model list installs exactly that list, leaves the
openai_compatible catalog untouched, and both observation points show
a whole catalog. -/
theorem c9_witness :
    (applyRegistryOp (.updateLitellm [dsChatModel]) registryInit).litellmModels =
      [dsChatModel] ∧
    (applyRegistryOp (.updateLitellm [dsChatModel])
        registryInit).openaiCompatibleModels =
      registryInit.openaiCompatibleModels ∧
    (∀ op, (applyRegistryOp op registryInit).openaiCompatibleModels =
      registryInit.openaiCompatibleModels) ∧
    (∀ t : RegistryState,
      t = registryInit ∨
        t = applyRegistryOp (.updateLitellm [dsChatModel]) registryInit →
      t.litellmModels = registryInit.litellmModels ∨
        t.litellmModels = [dsChatModel]) := by
  exact c9_atomic_replace_amended [dsChatModel] registryInit

end Fortitude
